import Mathlib

/-!
Shallow embedding of the hybrid property-search core of this repository:

* `src/database/mongo_client.py` — filter composition (`build_match_conditions`),
  pipeline composition (`build_search_pipeline`), query execution
  (`execute_search_query`) and result formatting (`format_search_results`);
* `src/tools/property_search.py` — the orchestrator `execute_hybrid_search`;
* `src/tools/rtvi_messaging.py` — the notification dispatch functions
  `send_property_search_results` and `send_property_search_error`.

External effects are modelled by explicit oracle values: the OpenAI embedding
call and the MongoDB aggregation are functions returning `Except String _`
(`Except.error` standing for a raised exception).  Python floats are modelled
as `Rat`; Python string slicing `s[:200]` is by characters, as is
`String.take`.  Wall-clock timestamps, the `debug_log` list of trace strings,
log output, the generated `uuid` and `timestamp` fields of RTVI messages, and
the asyncio timeout mechanics are not modelled: no claim treated here depends
on them.  Orchestrator results additionally record how often each external
boundary was exercised (embedding calls, filter/pipeline construction, store
queries), instrumentation read off directly from the Python control flow.
-/

namespace SecondBrain

/-- Predicate value stored under one field path of the MongoDB match-conditions
mapping built by `PropertyDatabase.build_match_conditions`:
a price-range document with optional `$gte`/`$lte` bounds, a plain string
equality, a case-insensitive `$regex` (with the pattern already escaped), or a
boolean equality. -/
inductive Cond where
  | priceRange (gte lte : Option Rat)
  | eqStr (s : String)
  | regexCaseInsensitive (pattern : String)
  | eqBool (b : Bool)
deriving DecidableEq

/-- Model of Python `re.escape`: every character other than an ASCII letter,
digit or underscore is preceded by a backslash. -/
def reEscape (s : String) : String :=
  String.mk (s.data.foldr
    (fun c acc => (if c.isAlphanum || c = '_' then [c] else ['\\', c]) ++ acc) [])

/-- Embedding of `PropertyDatabase.build_match_conditions`
(src/database/mongo_client.py lines 41-89).  The Python dict preserves
insertion order, so it is modelled as an association list appended to in the
order of the source. -/
def build_match_conditions
    (min_price max_price : Option Rat)
    (bedrooms bathrooms property_type location_keywords : Option String)
    (mls_genuine : Option Bool) : List (String × Cond) :=
  let match_conditions : List (String × Cond) := []
  let match_conditions :=
    if min_price.isSome || max_price.isSome then
      match_conditions ++ [("property_details.listed_price", Cond.priceRange min_price max_price)]
    else match_conditions
  let match_conditions :=
    match bedrooms with
    | some b => match_conditions ++ [("property_details.bedrooms", Cond.eqStr b)]
    | none => match_conditions
  let match_conditions :=
    match bathrooms with
    | some b => match_conditions ++ [("property_details.bathrooms", Cond.eqStr b)]
    | none => match_conditions
  let match_conditions :=
    match property_type with
    | some t =>
        match_conditions ++
          [("property_details.property_type", Cond.regexCaseInsensitive (reEscape t))]
    | none => match_conditions
  let match_conditions :=
    match location_keywords with
    | some l =>
        match_conditions ++
          [("property_details.address", Cond.regexCaseInsensitive (reEscape l))]
    | none => match_conditions
  let match_conditions :=
    match mls_genuine with
    | some g => match_conditions ++ [("property_details.mls_is_genuine", Cond.eqBool g)]
    | none => match_conditions
  match_conditions

/-- One stage of the aggregation pipeline built by `build_search_pipeline`. -/
inductive Stage where
  | vectorSearch (index path : String) (queryVector : List Rat)
      (numCandidates stageLimit : Int)
  | addSearchScoreField
  | matchStage (conds : List (String × Cond))
  | project (fields : List String)
  | sortByScoreDesc
  | limitStage (n : Int)
deriving DecidableEq

/-- Field paths listed in the `$project` stage of the pipeline
(src/database/mongo_client.py lines 118-136). -/
def projectedFields : List String :=
  ["_id", "property_url", "property_details.address",
   "property_details.listed_price", "property_details.currency",
   "property_details.bedrooms", "property_details.bathrooms",
   "property_details.property_type", "property_details.mls_description",
   "property_details.mls_number", "property_details.mls_is_genuine",
   "processing_info.images_analyzed", "processing_info.status",
   "ai_analysis_raw", "search_score"]

/-- Embedding of `PropertyDatabase.build_search_pipeline`
(src/database/mongo_client.py lines 91-141): vector stage with
`numCandidates = min(100, limit*10)` and stage limit `limit*5`, score
field, optional match stage (only when the conditions are non-empty),
projection, descending score sort, final limit. -/
def build_search_pipeline (embedding_vector : List Rat)
    (match_conditions : List (String × Cond)) (limit : Int)
    (vector_search_index : String) : List Stage :=
  let pipeline : List Stage :=
    [Stage.vectorSearch vector_search_index "embedding" embedding_vector
       (min 100 (limit * 10)) (limit * 5),
     Stage.addSearchScoreField]
  let pipeline :=
    if match_conditions.isEmpty then pipeline
    else pipeline ++ [Stage.matchStage match_conditions]
  pipeline ++ [Stage.project projectedFields, Stage.sortByScoreDesc, Stage.limitStage limit]

/-- Value of `processing_info.images_analyzed` as the Python code
distinguishes it: the code tests `images_analyzed and isinstance(images_analyzed, list)`,
so a missing field, a present non-list value and a present list are the three
relevant shapes. -/
inductive RawImages where
  | missing
  | nonList
  | list (urls : List String)
deriving DecidableEq

/-- Fields of the nested `property_details` sub-document that
`format_search_results` reads.  Values other than the description are passed
through unchanged (or replaced by a default), so they are modelled as opaque
rendered strings. -/
structure PropertyDetails where
  address : Option String
  listed_price : Option String
  currency : Option String
  bedrooms : Option String
  bathrooms : Option String
  property_type : Option String
  mls_description : Option String
  mls_number : Option String
  mls_is_genuine : Option String
deriving DecidableEq

/-- Fields of the nested `processing_info` sub-document that
`format_search_results` reads. -/
structure ProcessingInfo where
  images_analyzed : RawImages
  status : Option String
deriving DecidableEq

/-- Raw match document, restricted to the fields `format_search_results`
accesses.  `oid` is the stringified `_id`; `none` models an absent field. -/
structure RawDoc where
  oid : Option String
  property_url : Option String
  property_details : Option PropertyDetails
  processing_info : Option ProcessingInfo
  search_score : Option Rat
deriving DecidableEq

/-- The empty dict default of `result.get("property_details", {})`. -/
def emptyDetails : PropertyDetails :=
  PropertyDetails.mk none none none none none none none none none

/-- The empty dict default of `result.get("processing_info", {})`;
`{}.get("images_analyzed", [])` then yields a falsy value, modelled by
`RawImages.missing`. -/
def emptyProcessing : ProcessingInfo := ProcessingInfo.mk RawImages.missing none

/-- Placeholder image URLs synthesized from the record identifier when no
analyzed images are available (src/database/mongo_client.py lines 180-184). -/
def placeholderImages (property_id : String) : List String :=
  ["https://images.realtor.com/property/" ++ property_id ++ "/main.jpg",
   "https://images.realtor.com/property/" ++ property_id ++ "/interior.jpg",
   "https://images.realtor.com/property/" ++ property_id ++ "/exterior.jpg"]

/-- The formatted property dict produced per raw match. -/
structure PropertyRecord where
  property_id : String
  url : String
  image_urls : List String
  primary_image : String
  address : String
  price : String
  currency : String
  bedrooms : String
  bathrooms : String
  property_type : String
  mls_number : String
  mls_genuine : String
  search_score : Rat
  status : String
  description : String
deriving DecidableEq

/-- Model of Python `round(x, 4)`.  Python uses banker's rounding on floats
while `round` on `Rat` rounds half upward; they agree except at exact ties,
which no claim depends on. -/
def round4 (q : Rat) : Rat := ((round (q * 10000) : Int) : Rat) / 10000

/-- Embedding of the per-match body of `PropertyDatabase.format_search_results`
(src/database/mongo_client.py lines 166-208). -/
def format_one (result : RawDoc) : PropertyRecord :=
  let search_score := result.search_score.getD 0
  let property_details := result.property_details.getD emptyDetails
  let processing_info := result.processing_info.getD emptyProcessing
  let property_id := result.oid.getD ""
  let image_urls :=
    match processing_info.images_analyzed with
    | RawImages.list urls =>
        if urls.isEmpty then placeholderImages property_id else urls.take 3
    | _ => placeholderImages property_id
  let descriptionSrc := property_details.mls_description.getD ""
  PropertyRecord.mk
    property_id
    (result.property_url.getD "")
    image_urls
    (match image_urls with | [] => "" | u :: _ => u)
    (property_details.address.getD "N/A")
    (property_details.listed_price.getD "N/A")
    (property_details.currency.getD "CAD")
    (property_details.bedrooms.getD "N/A")
    (property_details.bathrooms.getD "N/A")
    (property_details.property_type.getD "N/A")
    (property_details.mls_number.getD "N/A")
    (property_details.mls_is_genuine.getD "N/A")
    (round4 search_score)
    (processing_info.status.getD "N/A")
    (if descriptionSrc = "" then "" else descriptionSrc.take 200 ++ "...")

/-- Embedding of `PropertyDatabase.format_search_results`. -/
def format_search_results (results : List RawDoc) : List PropertyRecord :=
  results.map format_one

deriving instance DecidableEq for Except

/-- Trace of one `execute_search_query` call: its outcome, whether the
per-query client connection was opened, and whether `client.close()` ran
before the function returned or the exception propagated. -/
structure ExecTrace where
  result : Except String (List RawDoc)
  connOpened : Bool
  connClosed : Bool
deriving DecidableEq

/-- Embedding of `PropertyDatabase.execute_search_query`
(src/database/mongo_client.py lines 143-160).  The code opens a client, runs
the aggregation (modelled by the `aggregate` oracle), and calls
`client.close()` only on the straight-line path after a successful
aggregation; the `except` clause logs and re-raises without closing, so on
the error path `connClosed` is `false`. -/
def execute_search_query (aggregate : Except String (List RawDoc)) : ExecTrace :=
  match aggregate with
  | Except.ok results => ExecTrace.mk (Except.ok results) true true
  | Except.error e => ExecTrace.mk (Except.error e) true false

/-- Model of Python `str.strip()`: leading and trailing whitespace characters
removed. -/
def pyStrip (s : String) : String :=
  String.mk (((s.data.dropWhile Char.isWhitespace).reverse.dropWhile
    Char.isWhitespace).reverse)

/-- Result value of `execute_hybrid_search`: its success dict (query,
embedding dimensionality, `results_found`, `top_similarity_scores`,
`properties`) or its error dict from `_create_error_result` (`error`,
`failure_point`, `query`). -/
inductive SearchOutcome where
  | success (query : String) (embedding_dimensions : Nat) (results_found : Nat)
      (top_similarity_scores : List Rat) (properties : List PropertyRecord)
  | failure (error : String) (failure_point : String) (query : String)
deriving DecidableEq

/-- Oracles for the two fallible external boundaries of the orchestrator:
the OpenAI embedding call (given the stripped query text) and the MongoDB
aggregation (given the pipeline just built).  `Except.error` stands for the
call raising an exception with the given message text. -/
structure Oracles where
  embedding : String → Except String (List Rat)
  aggregate : List Stage → Except String (List RawDoc)

/-- Outcome of one orchestrator invocation together with instrumentation of
the external boundaries: how many times the embedding service was called,
whether `build_match_conditions` and `build_search_pipeline` ran, and how many
store queries were executed. -/
structure ExecResult where
  outcome : SearchOutcome
  embeddingCalls : Nat
  filterBuilt : Bool
  pipelineBuilt : Bool
  storeQueryCalls : Nat
deriving DecidableEq

/-- Embedding of `execute_hybrid_search` (src/tools/property_search.py lines
29-183).  The Python validation `not text_query or not text_query.strip()` is
equivalent, for a string argument, to the stripped text being empty.  The
top-level `try/except` catches every exception and returns an error dict, so
the model is a total function into `ExecResult`; the `unexpected_error`
branch is unreachable for the modelled oracles because filter building,
pipeline building and formatting are pure. -/
def execute_hybrid_search (text_query : String)
    (min_price max_price : Option Rat)
    (bedrooms bathrooms property_type location_keywords : Option String)
    (mls_genuine : Option Bool)
    (limit : Int) (vector_search_index : String)
    (o : Oracles) : ExecResult :=
  if pyStrip text_query = "" then
    ExecResult.mk
      (SearchOutcome.failure "Text query is empty or None" "input_validation" text_query)
      0 false false 0
  else
    match o.embedding (pyStrip text_query) with
    | Except.error e =>
        ExecResult.mk
          (SearchOutcome.failure ("OpenAI API error: " ++ e) "openai_api_call" text_query)
          1 false false 0
    | Except.ok embedding_vector =>
        let match_conditions :=
          build_match_conditions min_price max_price bedrooms bathrooms
            property_type location_keywords mls_genuine
        let pipeline :=
          build_search_pipeline embedding_vector match_conditions limit vector_search_index
        match (execute_search_query (o.aggregate pipeline)).result with
        | Except.error e =>
            ExecResult.mk
              (SearchOutcome.failure ("MongoDB error: " ++ e) "mongodb_operation" text_query)
              1 true true 1
        | Except.ok results =>
            let formatted_results := format_search_results results
            let similarity_scores := formatted_results.map (fun p => p.search_score)
            ExecResult.mk
              (SearchOutcome.success text_query embedding_vector.length results.length
                similarity_scores formatted_results)
              1 true true 1

/-- RTVI message content pushed by the dispatcher: a
`property_search_results` message (summary counts plus the property list) or
a `property_search_error` message (error text and failure point). -/
inductive Envelope where
  | results (query : String) (total_found showing : Nat)
      (properties : List PropertyRecord)
  | error (query errorMsg failure_point : String)
deriving DecidableEq

/-- Embedding of `send_property_search_error` (src/tools/rtvi_messaging.py
lines 99-137): with no RTVI instance nothing is sent; otherwise the error
message is `search_data.get("error", "No properties found")` and the failure
point `search_data.get("failure_point", "unknown")` — a success dict carries
neither key, so both defaults apply to it. -/
def send_property_search_error (hasRtvi : Bool) (outcome : SearchOutcome)
    (text_query : String) : Option Envelope :=
  if hasRtvi then
    match outcome with
    | SearchOutcome.failure e fp _ => some (Envelope.error text_query e fp)
    | SearchOutcome.success _ _ _ _ _ =>
        some (Envelope.error text_query "No properties found" "unknown")
  else none

/-- Embedding of `send_property_search_results` (src/tools/rtvi_messaging.py
lines 19-96): the results branch requires `search_data.get("search_completed")`
truthy (only the success dict has that key) AND a non-empty `properties`
list; every other outcome is routed to `send_property_search_error`. -/
def send_property_search_results (hasRtvi : Bool) (outcome : SearchOutcome)
    (text_query : String) : Option Envelope :=
  if hasRtvi then
    match outcome with
    | SearchOutcome.success _ _ found _ props =>
        if props.isEmpty then send_property_search_error hasRtvi outcome text_query
        else some (Envelope.results text_query found props.length props)
    | SearchOutcome.failure _ _ _ => send_property_search_error hasRtvi outcome text_query
  else none

/-- Decidable test for a raw match carrying zero analyzed images: the Python
condition `images_analyzed and isinstance(images_analyzed, list)` is false,
i.e. the field is missing, not a list, or an empty list. -/
def hasNoAnalyzedImages (r : RawDoc) : Bool :=
  match (r.processing_info.getD emptyProcessing).images_analyzed with
  | RawImages.list urls => urls.isEmpty
  | _ => true

/-- Oracle pair where the embedding call raises with message "boom". -/
def oEmbFail : Oracles :=
  Oracles.mk (fun _ => Except.error "boom") (fun _ => Except.ok [])

/-- Oracle pair where the embedding call returns the vector `[1, 0]` and the
store aggregation raises with message "network error". -/
def oAggFail : Oracles :=
  Oracles.mk (fun _ => Except.ok [1, 0]) (fun _ => Except.error "network error")

/-- Oracle pair where the embedding call returns the vector `[1, 0]` and the
store aggregation returns zero matches. -/
def oAggEmpty : Oracles :=
  Oracles.mk (fun _ => Except.ok [1, 0]) (fun _ => Except.ok [])

/-- Raw match whose description "Nice home" is non-empty and well under 200
characters. -/
def docShortDesc : RawDoc :=
  RawDoc.mk none none
    (some (PropertyDetails.mk none none none none none none (some "Nice home") none none))
    none none

/-- Raw match with an identifier but no processing info, hence zero analyzed
images. -/
def docNoImages : RawDoc :=
  RawDoc.mk (some "abc123") none none none none

/-- C7: every invocation of `execute_hybrid_search` whose query text is empty
or whitespace-only returns the failure outcome with failure point
`"input_validation"`, with zero embedding calls, no filter or pipeline
construction, and zero store queries. -/
theorem c7_empty_query_validation (text_query : String)
    (min_price max_price : Option Rat)
    (bedrooms bathrooms property_type location_keywords : Option String)
    (mls_genuine : Option Bool) (limit : Int) (vector_search_index : String)
    (o : Oracles) (hq : pyStrip text_query = "") :
    execute_hybrid_search text_query min_price max_price bedrooms bathrooms
        property_type location_keywords mls_genuine limit vector_search_index o
      = ExecResult.mk
          (SearchOutcome.failure "Text query is empty or None" "input_validation" text_query)
          0 false false 0 := by
  simp only [execute_hybrid_search, if_pos hq]

/-- C7 witness: the whitespace-only query `"   "` is rejected at validation
with no embedding or store calls. -/
theorem c7_empty_query_validation_witness :
    pyStrip "   " = ""
    ∧ execute_hybrid_search "   " none none none none none none none 10 "vector_index" oEmbFail
        = ExecResult.mk
            (SearchOutcome.failure "Text query is empty or None" "input_validation" "   ")
            0 false false 0 :=
  ⟨by decide,
   c7_empty_query_validation "   " none none none none none none none 10 "vector_index"
     oEmbFail (by decide)⟩

/-- C1 counterexample: with the query "3 bedroom house Toronto" and an
embedding call that raises, the returned failure point is the literal
`"openai_api_call"`, not `"embedding_generation"` as the claim states. -/
theorem c1_stage_tag_counterexample :
    (execute_hybrid_search "3 bedroom house Toronto" none (some 500000) (some "3") none
        (some "house") (some "Toronto") none 5 "vector_index" oEmbFail).outcome
      = SearchOutcome.failure "OpenAI API error: boom" "openai_api_call"
          "3 bedroom house Toronto"
    ∧ ("openai_api_call" : String) ≠ "embedding_generation" := by
  exact ⟨rfl, by decide⟩

/-- C1 amended: for every invocation with a non-empty (after trimming) query
where the embedding call raises, the outcome is the failure variant whose
failure point is the code's literal tag `"openai_api_call"` wrapping the
underlying error text, the embedding was called once, and the document store
was never touched: no filter build, no pipeline build, no query execution. -/
theorem c1_embedding_failure_short_circuits (text_query : String)
    (min_price max_price : Option Rat)
    (bedrooms bathrooms property_type location_keywords : Option String)
    (mls_genuine : Option Bool) (limit : Int) (vector_search_index : String)
    (o : Oracles) (e : String)
    (hq : ¬ pyStrip text_query = "")
    (hemb : o.embedding (pyStrip text_query) = Except.error e) :
    execute_hybrid_search text_query min_price max_price bedrooms bathrooms
        property_type location_keywords mls_genuine limit vector_search_index o
      = ExecResult.mk
          (SearchOutcome.failure ("OpenAI API error: " ++ e) "openai_api_call" text_query)
          1 false false 0 := by
  simp only [execute_hybrid_search, if_neg hq, hemb]

/-- C1 amended witness: concrete failing embedding call on the query
"3 bedroom house Toronto". -/
theorem c1_embedding_failure_short_circuits_witness :
    ¬ pyStrip "3 bedroom house Toronto" = ""
    ∧ execute_hybrid_search "3 bedroom house Toronto" none (some 500000) (some "3") none
        (some "house") (some "Toronto") none 5 "vector_index" oEmbFail
      = ExecResult.mk
          (SearchOutcome.failure "OpenAI API error: boom" "openai_api_call"
            "3 bedroom house Toronto")
          1 false false 0 :=
  ⟨by decide,
   c1_embedding_failure_short_circuits "3 bedroom house Toronto" none (some 500000)
     (some "3") none (some "house") (some "Toronto") none 5 "vector_index" oEmbFail
     "boom" (by decide) rfl⟩

/-- C2 counterexample: with a successful embedding and a store aggregation
that raises, the returned failure point is the literal
`"mongodb_operation"`, not `"data_store_operation"` as the claim states. -/
theorem c2_stage_tag_counterexample :
    (execute_hybrid_search "3 bedroom house Toronto" none (some 500000) (some "3") none
        (some "house") (some "Toronto") none 5 "vector_index" oAggFail).outcome
      = SearchOutcome.failure "MongoDB error: network error" "mongodb_operation"
          "3 bedroom house Toronto"
    ∧ ("mongodb_operation" : String) ≠ "data_store_operation" := by
  exact ⟨rfl, by decide⟩

/-- C2 amended: for every invocation with a non-empty query where the
embedding succeeds and the store aggregation raises, the outcome is the
failure variant whose failure point is the code's literal tag
`"mongodb_operation"`, and the embedding call occurred exactly once. -/
theorem c2_store_failure_classified (text_query : String)
    (min_price max_price : Option Rat)
    (bedrooms bathrooms property_type location_keywords : Option String)
    (mls_genuine : Option Bool) (limit : Int) (vector_search_index : String)
    (o : Oracles) (vec : List Rat) (e : String)
    (hq : ¬ pyStrip text_query = "")
    (hemb : o.embedding (pyStrip text_query) = Except.ok vec)
    (hagg : o.aggregate
        (build_search_pipeline vec
          (build_match_conditions min_price max_price bedrooms bathrooms property_type
            location_keywords mls_genuine)
          limit vector_search_index)
      = Except.error e) :
    execute_hybrid_search text_query min_price max_price bedrooms bathrooms
        property_type location_keywords mls_genuine limit vector_search_index o
      = ExecResult.mk
          (SearchOutcome.failure ("MongoDB error: " ++ e) "mongodb_operation" text_query)
          1 true true 1 := by
  simp only [execute_hybrid_search, if_neg hq, hemb, execute_search_query, hagg]

/-- C2 amended witness: concrete failing aggregation after a successful
embedding call. -/
theorem c2_store_failure_classified_witness :
    ¬ pyStrip "3 bedroom house Toronto" = ""
    ∧ execute_hybrid_search "3 bedroom house Toronto" none (some 500000) (some "3") none
        (some "house") (some "Toronto") none 5 "vector_index" oAggFail
      = ExecResult.mk
          (SearchOutcome.failure "MongoDB error: network error" "mongodb_operation"
            "3 bedroom house Toronto")
          1 true true 1 :=
  ⟨by decide,
   c2_store_failure_classified "3 bedroom house Toronto" none (some 500000) (some "3")
     none (some "house") (some "Toronto") none 5 "vector_index" oAggFail [1, 0]
     "network error" (by decide) rfl rfl⟩

/-- C3: evaluating `execute_search_query` on an aggregation that raises shows
the connection is opened, the exception propagates with its message
preserved, and `client.close()` never runs — the `except` clause re-raises
without closing, contradicting the claimed unconditional release on every
exit path. -/
theorem c3_connection_not_closed_on_error :
    execute_search_query (Except.error "network error")
      = ExecTrace.mk (Except.error "network error") true false
    ∧ (execute_search_query (Except.error "network error")).connClosed = false := by
  exact ⟨rfl, rfl⟩

/-- Helper: taking 200 characters of a string of length at most 200 returns
the string unchanged. -/
theorem string_take_cap (s : String) (h : s.length ≤ 200) : s.take 200 = s := by
  rw [String.take_eq, List.take_of_length_le (show s.data.length ≤ 200 from h)]

/-- C4 counterexample: the concrete scenario request produces a filter with 4
predicates (price upper bound, bedrooms equality, property-type match,
location match), not exactly 3 as the claim counts them. -/
theorem c4_predicate_count_counterexample :
    (build_match_conditions none (some 500000) (some "3") none (some "house")
        (some "Toronto") none).length = 4
    ∧ (build_match_conditions none (some 500000) (some "3") none (some "house")
        (some "Toronto") none).length ≠ 3 := by
  exact ⟨rfl, by decide⟩

/-- C4 amended: for the request with max price 500000, bedrooms "3", type
"house", location "Toronto" and limit 5, the composed filter contains exactly
4 predicates — a price upper bound, a bedrooms string equality on "3", a
case-insensitive match on "house" and a case-insensitive match on "Toronto" —
and the pipeline's vector stage has candidate pool size min(100, 5*10) = 50,
intermediate limit 25 and final limit 5. -/
theorem c4_concrete_scenario (v : List Rat) :
    build_match_conditions none (some 500000) (some "3") none (some "house")
        (some "Toronto") none
      = [("property_details.listed_price", Cond.priceRange none (some 500000)),
         ("property_details.bedrooms", Cond.eqStr "3"),
         ("property_details.property_type", Cond.regexCaseInsensitive "house"),
         ("property_details.address", Cond.regexCaseInsensitive "Toronto")]
    ∧ build_search_pipeline v
        (build_match_conditions none (some 500000) (some "3") none (some "house")
          (some "Toronto") none) 5 "vector_index"
      = [Stage.vectorSearch "vector_index" "embedding" v 50 25,
         Stage.addSearchScoreField,
         Stage.matchStage
           [("property_details.listed_price", Cond.priceRange none (some 500000)),
            ("property_details.bedrooms", Cond.eqStr "3"),
            ("property_details.property_type", Cond.regexCaseInsensitive "house"),
            ("property_details.address", Cond.regexCaseInsensitive "Toronto")],
         Stage.project projectedFields,
         Stage.sortByScoreDesc,
         Stage.limitStage 5] := by
  exact ⟨rfl, rfl⟩

/-- C5 counterexample: the raw match whose description is the 9-character
string "Nice home" is formatted with a trailing ellipsis marker, so a
non-empty description of at most 200 characters does not come out
unmodified. -/
theorem c5_truncation_counterexample :
    (format_one docShortDesc).description = "Nice home..."
    ∧ ("Nice home" : String).length ≤ 200
    ∧ ("Nice home" : String) ≠ ""
    ∧ ("Nice home..." : String) ≠ "Nice home" := by
  refine ⟨?_, by decide, by decide, by decide⟩
  have h : (format_one docShortDesc).description
      = (if ("Nice home" : String) = "" then ""
          else ("Nice home" : String).take 200 ++ "...") := rfl
  rw [h, if_neg (by decide), string_take_cap _ (by decide)]
  decide

/-- C5 amended: for every raw match, an absent or empty source description
formats to the empty string; every non-empty source description of at most
200 characters formats to the unmodified description with the ellipsis marker
appended; and a description longer than 200 characters formats to its first
200 characters with the ellipsis marker appended. -/
theorem c5_description_truncation (result : RawDoc) :
    ((result.property_details.getD emptyDetails).mls_description.getD "" = "" →
        (format_one result).description = "")
    ∧ (∀ d : String,
        (result.property_details.getD emptyDetails).mls_description.getD "" = d →
        d ≠ "" → d.length ≤ 200 →
        (format_one result).description = d ++ "...")
    ∧ (∀ d : String,
        (result.property_details.getD emptyDetails).mls_description.getD "" = d →
        200 < d.length →
        (format_one result).description = d.take 200 ++ "...") := by
  have hdesc : (format_one result).description
      = (if (result.property_details.getD emptyDetails).mls_description.getD "" = ""
          then ""
          else ((result.property_details.getD emptyDetails).mls_description.getD "").take 200
                ++ "...") := rfl
  refine ⟨fun h => ?_, fun d hd hne hlen => ?_, fun d hd _hlen => ?_⟩
  · rw [hdesc, if_pos h]
  · rw [hdesc, hd, if_neg hne, string_take_cap d hlen]
  · rw [hdesc, hd, if_neg ?_]
    intro hcontr
    rw [hcontr] at _hlen
    exact absurd _hlen (by decide)

/-- C5 amended witness: the 9-character description "Nice home" formats to
"Nice home" with the ellipsis marker appended. -/
theorem c5_description_truncation_witness :
    (docShortDesc.property_details.getD emptyDetails).mls_description.getD "" = "Nice home"
    ∧ ("Nice home" : String) ≠ ""
    ∧ ("Nice home" : String).length ≤ 200
    ∧ (format_one docShortDesc).description = "Nice home" ++ "..." :=
  ⟨rfl, by decide, by decide,
   (c5_description_truncation docShortDesc).2.1 "Nice home" rfl (by decide) (by decide)⟩

/-- C6: when the query is valid, the embedding succeeds and the store returns
zero matches, the orchestrator's outcome is the Success variant with
results_found = 0 and an empty property list, and the notification dispatcher
routes that outcome to an error-kind envelope carrying the literal message
"No properties found", not a results-kind envelope. -/
theorem c6_zero_results_error_envelope (text_query : String)
    (min_price max_price : Option Rat)
    (bedrooms bathrooms property_type location_keywords : Option String)
    (mls_genuine : Option Bool) (limit : Int) (vector_search_index : String)
    (o : Oracles) (vec : List Rat)
    (hq : ¬ pyStrip text_query = "")
    (hemb : o.embedding (pyStrip text_query) = Except.ok vec)
    (hagg : o.aggregate
        (build_search_pipeline vec
          (build_match_conditions min_price max_price bedrooms bathrooms property_type
            location_keywords mls_genuine)
          limit vector_search_index)
      = Except.ok []) :
    (execute_hybrid_search text_query min_price max_price bedrooms bathrooms
        property_type location_keywords mls_genuine limit vector_search_index o).outcome
      = SearchOutcome.success text_query vec.length 0 [] []
    ∧ send_property_search_results true
        (execute_hybrid_search text_query min_price max_price bedrooms bathrooms
          property_type location_keywords mls_genuine limit vector_search_index o).outcome
        text_query
      = some (Envelope.error text_query "No properties found" "unknown") := by
  have h : (execute_hybrid_search text_query min_price max_price bedrooms bathrooms
      property_type location_keywords mls_genuine limit vector_search_index o).outcome
      = SearchOutcome.success text_query vec.length 0 [] [] := by
    simp only [execute_hybrid_search, if_neg hq, hemb, execute_search_query, hagg,
      format_search_results, List.map_nil, List.length_nil]
  refine ⟨h, ?_⟩
  rw [h]
  rfl

/-- C6 witness: concrete invocation whose store aggregation returns zero
matches. -/
theorem c6_zero_results_error_envelope_witness :
    ¬ pyStrip "3 bedroom house Toronto" = ""
    ∧ (execute_hybrid_search "3 bedroom house Toronto" none (some 500000) (some "3") none
        (some "house") (some "Toronto") none 5 "vector_index" oAggEmpty).outcome
      = SearchOutcome.success "3 bedroom house Toronto" 2 0 [] []
    ∧ send_property_search_results true
        (execute_hybrid_search "3 bedroom house Toronto" none (some 500000) (some "3") none
          (some "house") (some "Toronto") none 5 "vector_index" oAggEmpty).outcome
        "3 bedroom house Toronto"
      = some (Envelope.error "3 bedroom house Toronto" "No properties found" "unknown") :=
  ⟨by decide,
   c6_zero_results_error_envelope "3 bedroom house Toronto" none (some 500000) (some "3")
     none (some "house") (some "Toronto") none 5 "vector_index" oAggEmpty [1, 0]
     (by decide) rfl rfl⟩

/-- C8: for every input and every behaviour of the external calls, the
orchestrator returns a plain outcome value — the Success variant, or the
Failure variant whose failure point is one of the code's four stage tags;
the top-level exception handler leaves no raising path. -/
theorem c8_never_raises (text_query : String) (min_price max_price : Option Rat)
    (bedrooms bathrooms property_type location_keywords : Option String)
    (mls_genuine : Option Bool) (limit : Int) (vector_search_index : String)
    (o : Oracles) :
    (∃ dims found scores props,
        (execute_hybrid_search text_query min_price max_price bedrooms bathrooms
            property_type location_keywords mls_genuine limit vector_search_index o).outcome
          = SearchOutcome.success text_query dims found scores props)
    ∨ (∃ e fp,
        (execute_hybrid_search text_query min_price max_price bedrooms bathrooms
            property_type location_keywords mls_genuine limit vector_search_index o).outcome
          = SearchOutcome.failure e fp text_query
        ∧ (fp = "input_validation" ∨ fp = "openai_api_call" ∨ fp = "mongodb_operation"
            ∨ fp = "unexpected_error")) := by
  by_cases hq : pyStrip text_query = ""
  · right
    refine ⟨"Text query is empty or None", "input_validation", ?_, Or.inl rfl⟩
    simp only [execute_hybrid_search, if_pos hq]
  · cases hemb : o.embedding (pyStrip text_query) with
    | error e =>
        right
        refine ⟨"OpenAI API error: " ++ e, "openai_api_call", ?_, Or.inr (Or.inl rfl)⟩
        simp only [execute_hybrid_search, if_neg hq, hemb]
    | ok vec =>
        cases hagg : o.aggregate
            (build_search_pipeline vec
              (build_match_conditions min_price max_price bedrooms bathrooms property_type
                location_keywords mls_genuine)
              limit vector_search_index) with
        | error e =>
            right
            refine ⟨"MongoDB error: " ++ e, "mongodb_operation", ?_,
              Or.inr (Or.inr (Or.inl rfl))⟩
            simp only [execute_hybrid_search, if_neg hq, hemb, execute_search_query, hagg]
        | ok results =>
            left
            refine ⟨vec.length, results.length,
              (format_search_results results).map (fun p => p.search_score),
              format_search_results results, ?_⟩
            simp only [execute_hybrid_search, if_neg hq, hemb, execute_search_query, hagg]

/-- C9: every formatted record carries at most 3 image URLs, and a raw match
with zero analyzed images yields exactly the 3 placeholder URLs, each of
which contains the record identifier between a fixed prefix and suffix. -/
theorem c9_image_list_invariant (r : RawDoc) :
    (format_one r).image_urls.length ≤ 3
    ∧ (hasNoAnalyzedImages r = true →
        (format_one r).image_urls
          = ["https://images.realtor.com/property/" ++ r.oid.getD "" ++ "/main.jpg",
             "https://images.realtor.com/property/" ++ r.oid.getD "" ++ "/interior.jpg",
             "https://images.realtor.com/property/" ++ r.oid.getD "" ++ "/exterior.jpg"]) := by
  have himg : (format_one r).image_urls
      = (match (r.processing_info.getD emptyProcessing).images_analyzed with
          | RawImages.list urls =>
              if urls.isEmpty then placeholderImages (r.oid.getD "") else urls.take 3
          | _ => placeholderImages (r.oid.getD "")) := rfl
  cases him : (r.processing_info.getD emptyProcessing).images_analyzed with
  | missing =>
      rw [himg, him]
      exact ⟨by simp [placeholderImages], fun _ => by simp [placeholderImages]⟩
  | nonList =>
      rw [himg, him]
      exact ⟨by simp [placeholderImages], fun _ => by simp [placeholderImages]⟩
  | list urls =>
      rw [himg, him]
      cases urls with
      | nil =>
          exact ⟨by simp [placeholderImages], fun _ => by simp [placeholderImages]⟩
      | cons u us =>
          constructor
          · show (if (u :: us).isEmpty = true then placeholderImages (r.oid.getD "")
                else (u :: us).take 3).length ≤ 3
            rw [if_neg (by simp), List.length_take]
            exact min_le_left _ _
          · intro hno
            exfalso
            have hfalse : hasNoAnalyzedImages r = false := by
              simp [hasNoAnalyzedImages, him]
            rw [hno] at hfalse
            exact absurd hfalse (by decide)

/-- C9 witness: a raw match with no processing info yields the three
placeholder URLs built from its identifier "abc123". -/
theorem c9_image_list_invariant_witness :
    hasNoAnalyzedImages docNoImages = true
    ∧ (format_one docNoImages).image_urls
      = ["https://images.realtor.com/property/" ++ docNoImages.oid.getD "" ++ "/main.jpg",
         "https://images.realtor.com/property/" ++ docNoImages.oid.getD "" ++ "/interior.jpg",
         "https://images.realtor.com/property/" ++ docNoImages.oid.getD "" ++ "/exterior.jpg"] :=
  ⟨rfl, (c9_image_list_invariant docNoImages).2 rfl⟩

/-- C10: every formatted record has a non-empty image URL list, and its
primary image is that list's first element, so the empty-string fallback for
the primary image is never taken. -/
theorem c10_primary_image_first (r : RawDoc) :
    ∃ u rest, (format_one r).image_urls = u :: rest
      ∧ (format_one r).primary_image = u := by
  have himg : (format_one r).image_urls
      = (match (r.processing_info.getD emptyProcessing).images_analyzed with
          | RawImages.list urls =>
              if urls.isEmpty then placeholderImages (r.oid.getD "") else urls.take 3
          | _ => placeholderImages (r.oid.getD "")) := rfl
  have hpri : (format_one r).primary_image
      = (match (format_one r).image_urls with
          | [] => ""
          | u :: _ => u) := rfl
  cases him : (r.processing_info.getD emptyProcessing).images_analyzed with
  | missing =>
      refine ⟨"https://images.realtor.com/property/" ++ r.oid.getD "" ++ "/main.jpg",
        ["https://images.realtor.com/property/" ++ r.oid.getD "" ++ "/interior.jpg",
         "https://images.realtor.com/property/" ++ r.oid.getD "" ++ "/exterior.jpg"],
        ?_, ?_⟩
      · rw [himg, him]
        rfl
      · rw [hpri, himg, him]
        rfl
  | nonList =>
      refine ⟨"https://images.realtor.com/property/" ++ r.oid.getD "" ++ "/main.jpg",
        ["https://images.realtor.com/property/" ++ r.oid.getD "" ++ "/interior.jpg",
         "https://images.realtor.com/property/" ++ r.oid.getD "" ++ "/exterior.jpg"],
        ?_, ?_⟩
      · rw [himg, him]
        rfl
      · rw [hpri, himg, him]
        rfl
  | list urls =>
      cases urls with
      | nil =>
          refine ⟨"https://images.realtor.com/property/" ++ r.oid.getD "" ++ "/main.jpg",
            ["https://images.realtor.com/property/" ++ r.oid.getD "" ++ "/interior.jpg",
             "https://images.realtor.com/property/" ++ r.oid.getD "" ++ "/exterior.jpg"],
            ?_, ?_⟩
          · rw [himg, him]
            rfl
          · rw [hpri, himg, him]
            rfl
      | cons u us =>
          refine ⟨u, us.take 2, ?_, ?_⟩
          · rw [himg, him]
            rfl
          · rw [hpri, himg, him]
            rfl

end SecondBrain
